import Mathlib

/-!
Verification development for the single-endpoint maps gateway server
(`src/backend/app.py`).  The Python handler `SimpleHandler.do_POST` is
shallowly embedded: timestamps (`time.time()`) become rationals, the
per-identity `deque` of timestamps becomes a `List ℚ`, JSON values become
an inductive type, and the two external effects (the `urllib.parse.quote`
library call and the upstream Ollama HTTP call) become parameters of the
handler function.  HTTP responses are modelled by their status, body and
`Retry-After` header; an uncaught Python exception is modelled by a
distinguished `crash` outcome.  Python string methods are modelled over
the character list of a `String` (they agree with Python on the ASCII
texts the handler manipulates).
-/

namespace MapsGateway

/-- Rate-limiter configuration.  In the source these are the module-level
constants `MAX_REQUESTS_PER_WINDOW` and `RATE_LIMIT_WINDOW_SECONDS`. -/
structure RateConfig where
  maxRequests : Nat
  windowSeconds : ℚ
deriving DecidableEq

/-- The configured values in the source: 5 requests per 60 seconds. -/
def defaultConfig : RateConfig := ⟨5, 60⟩

/-- Python `int()` applied to a (real-valued) number: truncation toward
zero. -/
def pyTrunc (x : ℚ) : ℤ := if 0 ≤ x then ⌊x⌋ else ⌈x⌉

/-- The pruning loop of `do_POST`:
`while log and log[0] < current_time - RATE_LIMIT_WINDOW_SECONDS: log.popleft()`.
Popping from the front while the head is expired is exactly `dropWhile`. -/
def pruneLog (cfg : RateConfig) (now : ℚ) (log : List ℚ) : List ℚ :=
  log.dropWhile (fun t => decide (t < now - cfg.windowSeconds))

/-- Result of the rate-limit check (§4.2 of the design: `Allowed | Denied`). -/
inductive RateResult
  | allowed
  | denied (retryAfter : ℤ)
deriving DecidableEq

/-- The `retry_after` computed in the deny branch:
`int(RATE_LIMIT_WINDOW_SECONDS - (current_time - log[0])) + 1`. -/
def retryAfterOf (cfg : RateConfig) (now oldest : ℚ) : ℤ :=
  pyTrunc (cfg.windowSeconds - (now - oldest)) + 1

/-- The rate-limiting block of `do_POST` for one identity: prune, then deny
if the remaining count has reached the limit (the source reads `log[0]`,
which is defined because the deny branch guarantees the log is non-empty
whenever `maxRequests ≥ 1`; `headD 0` supplies that head), otherwise append
`now`. -/
def checkAndRecord (cfg : RateConfig) (now : ℚ) (log : List ℚ) :
    RateResult × List ℚ :=
  let pruned := pruneLog cfg now log
  if cfg.maxRequests ≤ pruned.length then
    (.denied (retryAfterOf cfg now (pruned.headD 0)), pruned)
  else
    (.allowed, pruned ++ [now])

/-- A sequence of rate-limit checks for one identity, starting from the
lazily-created empty log (`defaultdict(deque)`). -/
def runChecks (cfg : RateConfig) (ts : List ℚ) : List ℚ :=
  ts.foldl (fun log t => (checkAndRecord cfg t log).2) []

/-- Python `str.strip()`: drop whitespace from both ends. -/
def pyStrip (l : List Char) : List Char :=
  ((l.dropWhile Char.isWhitespace).reverse.dropWhile Char.isWhitespace).reverse

/-- Python `str.lower()` (the handler only lowercases ASCII text). -/
def pyLower (l : List Char) : List Char := l.map Char.toLower

/-- First conversational prefix stripped from the upstream text
(compared case-insensitively: `raw_query.lower().startswith(...)`). -/
def knownLabel1 : String := "the query is:"

/-- Second conversational prefix stripped from the upstream text. -/
def knownLabel2 : String := "google maps search query:"

/-- The prefix-stripping `if/elif` of `do_POST`; `raw[len(p):]` drops
`p.length` characters and the branch re-strips the remainder. -/
def stripKnownLabel (raw : List Char) : List Char :=
  if knownLabel1.data.isPrefixOf (pyLower raw) then
    pyStrip (raw.drop knownLabel1.length)
  else if knownLabel2.data.isPrefixOf (pyLower raw) then
    pyStrip (raw.drop knownLabel2.length)
  else raw

/-- The quote-removal step:
`if raw.startswith('"') and raw.endswith('"'): raw = raw[1:-1]`. -/
def stripSurroundingQuotes (raw : List Char) : List Char :=
  if ['"'].isPrefixOf raw && ['"'].isSuffixOf raw then
    (raw.drop 1).dropLast
  else raw

/-- The whole normalization applied to the upstream `response` field:
`llm_json.get("response", "").strip()`, then prefix stripping, then quote
stripping. -/
def normalizeQuery (resp : String) : String :=
  (stripSurroundingQuotes (stripKnownLabel (pyStrip resp.data))).asString

/-- JSON values as produced by Python's `json.loads` (object keys are
unique after parsing; `lookupField` below is `dict.get`). -/
inductive PyJson
  | str (s : String)
  | num (n : ℤ)
  | bool (b : Bool)
  | null
  | arr (xs : List PyJson)
  | obj (fields : List (String × PyJson))

/-- First-match association lookup; since `json.loads` produces a dict,
keys are unique and this is `dict.get(key)` (returning `none` when the key
is absent). -/
def lookupField (fields : List (String × PyJson)) (key : String) :
    Option PyJson :=
  match fields with
  | [] => none
  | (k, v) :: rest => if k = key then some v else lookupField rest key

/-- Process-level configuration of the server: the two environment secrets
and the rate-limit constants. -/
structure ServerConfig where
  serverApiKey : String
  googleMapsApiKey : String
  rateCfg : RateConfig

/-- An incoming POST request as the handler sees it: the URL path, the
optional `X-API-Key` header, and the body after an attempted
`json.loads` (`none` models a body that raises `JSONDecodeError`). -/
structure Request where
  path : String
  apiKey : Option String
  body : Option PyJson

/-- Body of an HTTP response: the handler writes either plain text or a
serialized JSON object. -/
inductive ResponseBody
  | text (s : String)
  | json (fields : List (String × PyJson))

/-- What one call of the handler produces: an HTTP response (status, body,
optional `Retry-After` header) or an uncaught Python exception. -/
inductive Outcome
  | response (status : Nat) (body : ResponseBody) (retryAfter : Option ℤ)
  | crash (detail : String)

/-- The status code of an outcome, when a response was actually sent. -/
def statusOf : Outcome → Option Nat
  | .response s _ _ => some s
  | .crash _ => none

/-- The result of the single upstream Ollama call, as far as the handler
observes it: a transport failure (`requests.exceptions.ConnectionError`),
any other raised error, or a reply whose `response` field holds the given
text (`llm_json.get("response", "")`, so a missing field is the empty
string). -/
inductive UpstreamResult
  | connectionError
  | otherError (detail : String)
  | success (responseField : String)

/-- The authentication guard:
`if not client_api_key or client_api_key != SERVER_API_KEY` rejects, so the
request is authorized iff the header is present, non-empty and equal to the
configured secret. -/
def authOk (C : ServerConfig) (key : Option String) : Bool :=
  match key with
  | none => false
  | some k => !(k == "") && k == C.serverApiKey

/-- Base of the interactive maps link built on success. -/
def mapsSearchBase : String := "https://www.google.com/maps/search/?api=1&query="

/-- The embeddable maps link built on success. -/
def mapsEmbedUrl (googleKey q : String) : String :=
  "https://www.google.com/maps/embed/v1/place?key=" ++ googleKey ++ "&q=" ++ q

/-- The tail of `do_POST` after body parsing: the upstream call, output
normalization, the empty-extraction check, link building and the success
payload.  `quoteFn` stands for the `urllib.parse.quote` library call and
`prompt` is the value `body.get("prompt", "")`.  The request log is
threaded through unchanged. -/
def extractionStage (C : ServerConfig) (quoteFn : String → String)
    (prompt : PyJson) (upstream : UpstreamResult) (log : List ℚ) :
    Outcome × List ℚ :=
  match upstream with
  | .connectionError =>
    (.response 503 (.text "Service Unavailable: Could not connect to Ollama.") none, log)
  | .otherError d =>
    (.response 500 (.text ("LLM processing error: " ++ d)) none, log)
  | .success resp =>
    let rawQuery := normalizeQuery resp
    if rawQuery = "" then
      (.response 400 (.text "Empty or invalid query extracted by LLM.") none, log)
    else
      let q := quoteFn rawQuery
      (.response 200 (.json
        [("original_prompt", prompt),
         ("llm_query_extracted", .str rawQuery),
         ("Maps_interactive_link", .str (mapsSearchBase ++ q)),
         ("Maps_embed_iframe_url", .str (mapsEmbedUrl C.googleMapsApiKey q))]) none,
       log)

/-- Handler `SimpleHandler.do_POST` for one request, acting on the caller
identity's request log (the deque `REQUEST_LOGS[client_identifier]`; the
identity is the presented API key, so after authentication all requests of
this key share this log).  Stages in source order: path check, auth guard,
rate limiting, body parsing, then `extractionStage`.  A decodable body
that is not a JSON object makes `body.get` raise an uncaught
`AttributeError`: no response is sent, which `crash` records. -/
def doPost (C : ServerConfig) (quoteFn : String → String) (req : Request)
    (now : ℚ) (log : List ℚ) (upstream : UpstreamResult) :
    Outcome × List ℚ :=
  if req.path ≠ "/places" then
    (.response 404 (.text "Not Found") none, log)
  else if !(authOk C req.apiKey) then
    (.response 401 (.text "Unauthorized: Invalid or missing X-API-Key header.") none, log)
  else
    match checkAndRecord C.rateCfg now log with
    | (.denied r, log') =>
      (.response 429
        (.text ("Too Many Requests. Please try again after " ++ toString r ++ " seconds."))
        (some r), log')
    | (.allowed, log') =>
      match req.body with
      | none => (.response 400 (.text "Invalid JSON body") none, log')
      | some (.obj fields) =>
        extractionStage C quoteFn ((lookupField fields "prompt").getD (.str ""))
          upstream log'
      | some _ => (.crash "AttributeError: body has no attribute get", log')

/-- Method dispatch of `BaseHTTPRequestHandler`: `do_OPTIONS` answers 200
with CORS headers on any path, `do_POST` is the handler above, and any
method without a `do_*` implementation gets the library's
501 "Unsupported method" error response. -/
def handleRequest (C : ServerConfig) (quoteFn : String → String)
    (method : String) (req : Request) (now : ℚ) (log : List ℚ)
    (upstream : UpstreamResult) : Outcome × List ℚ :=
  if method = "OPTIONS" then
    (.response 200 (.text "") none, log)
  else if method = "POST" then
    doPost C quoteFn req now log upstream
  else
    (.response 501 (.text ("Unsupported method (" ++ method ++ ")")) none, log)

end MapsGateway

namespace MapsGateway

/-- A pinned server configuration used to instantiate general theorems. -/
def testConfig : ServerConfig := ⟨"secret-key", "maps-key", defaultConfig⟩

/-- One hexadecimal digit, uppercase, as `urllib.parse.quote` writes it. -/
def hexDigit (n : Nat) : Char := "0123456789ABCDEF".data.getD n '0'

/-- Characters `urllib.parse.quote` leaves unescaped with its default
`safe='/'`: unreserved characters plus the slash. -/
def quoteSafe (c : Char) : Bool :=
  c.isAlphanum || c = '_' || c = '.' || c = '-' || c = '~' || c = '/'

/-- Model of `urllib.parse.quote` on the ASCII strings the handler builds:
safe characters are kept, every other character becomes `%XX`. -/
def pyQuote (s : String) : String :=
  (s.data.flatMap fun c =>
    if quoteSafe c then [c]
    else ['%', hexDigit (c.toNat / 16), hexDigit (c.toNat % 16)]).asString

/-- The log left by pruning is a sublist of the original log. -/
theorem pruneLog_sublist (cfg : RateConfig) (now : ℚ) (log : List ℚ) :
    List.Sublist (pruneLog cfg now log) log :=
  List.dropWhile_sublist _

/-- Pruning stops at the first timestamp that is not expired, so the head
of a non-empty pruned log is at least `now - window`. -/
theorem pruneLog_headD_ge (cfg : RateConfig) (now : ℚ) (log : List ℚ)
    (h : pruneLog cfg now log ≠ []) :
    now - cfg.windowSeconds ≤ (pruneLog cfg now log).headD 0 := by
  induction log with
  | nil => simp [pruneLog] at h
  | cons a l ih =>
    by_cases ha : a < now - cfg.windowSeconds
    · have he : pruneLog cfg now (a :: l) = pruneLog cfg now l := by
        simp [pruneLog, List.dropWhile_cons, ha]
      rw [he] at h ⊢
      exact ih h
    · have he : pruneLog cfg now (a :: l) = a :: l := by
        simp [pruneLog, List.dropWhile_cons, ha]
      rw [he]
      simpa using not_lt.mp ha

/-- In a sorted list the (defaulted) head is a lower bound. -/
theorem sorted_headD_le {l : List ℚ} (hs : l.Sorted (· ≤ ·)) :
    ∀ x ∈ l, l.headD 0 ≤ x := by
  cases l with
  | nil => simp
  | cons a t =>
    intro x hx
    rcases List.mem_cons.mp hx with rfl | hxt
    · simp
    · simpa using (List.sorted_cons.mp hs).1 x hxt

/-- For a sorted log, every timestamp surviving the prune is at least
`now - window`. -/
theorem pruneLog_bound (cfg : RateConfig) (now : ℚ) {log : List ℚ}
    (hs : log.Sorted (· ≤ ·)) :
    ∀ x ∈ pruneLog cfg now log, now - cfg.windowSeconds ≤ x := by
  intro x hx
  have hne : pruneLog cfg now log ≠ [] := List.ne_nil_of_mem hx
  have hps : (pruneLog cfg now log).Sorted (· ≤ ·) :=
    hs.sublist (pruneLog_sublist cfg now log)
  exact le_trans (pruneLog_headD_ge cfg now log hne) (sorted_headD_le hps x hx)

/-- C1 (amended): when the pruned log has reached `max_requests`, the
request is denied with `retry_after = ⌊window - (now - oldest)⌋ + 1`,
which is always at least 1; this equals `⌈window - (now - oldest)⌉` except
when `window - (now - oldest)` is an integer, where the code returns one
more than the ceiling (the source computes `int(x) + 1`, not `ceil(x)`
with a floor of 1). -/
theorem rate_limit_denied_retry (cfg : RateConfig) (now : ℚ) (log : List ℚ)
    (hmax : 1 ≤ cfg.maxRequests)
    (hlen : cfg.maxRequests ≤ (pruneLog cfg now log).length) :
    (checkAndRecord cfg now log).1 =
      .denied (⌊cfg.windowSeconds - (now - (pruneLog cfg now log).headD 0)⌋ + 1) ∧
    (checkAndRecord cfg now log).2 = pruneLog cfg now log ∧
    1 ≤ ⌊cfg.windowSeconds - (now - (pruneLog cfg now log).headD 0)⌋ + 1 := by
  have hne : pruneLog cfg now log ≠ [] := by
    intro h
    rw [h] at hlen
    simp only [List.length_nil, Nat.le_zero] at hlen
    omega
  have hh := pruneLog_headD_ge cfg now log hne
  have harg : 0 ≤ cfg.windowSeconds - (now - (pruneLog cfg now log).headD 0) := by
    linarith
  have hfloor : 0 ≤ ⌊cfg.windowSeconds - (now - (pruneLog cfg now log).headD 0)⌋ :=
    Int.floor_nonneg.mpr harg
  have hc : checkAndRecord cfg now log =
      (.denied (retryAfterOf cfg now ((pruneLog cfg now log).headD 0)),
       pruneLog cfg now log) := by
    unfold checkAndRecord
    rw [if_pos hlen]
  have hr : retryAfterOf cfg now ((pruneLog cfg now log).headD 0) =
      ⌊cfg.windowSeconds - (now - (pruneLog cfg now log).headD 0)⌋ + 1 := by
    unfold retryAfterOf pyTrunc
    rw [if_pos harg]
  refine ⟨?_, ?_, by omega⟩
  · rw [hc, hr]
  · rw [hc]

/-- Witness for `rate_limit_denied_retry` at the configured limits, five
requests at time 0, checked at time 1. -/
theorem rate_limit_denied_retry_witness :
    1 ≤ defaultConfig.maxRequests ∧
    defaultConfig.maxRequests ≤ (pruneLog defaultConfig 1 [0, 0, 0, 0, 0]).length ∧
    ((checkAndRecord defaultConfig 1 [0, 0, 0, 0, 0]).1 =
      .denied (⌊defaultConfig.windowSeconds -
        ((1 : ℚ) - (pruneLog defaultConfig 1 [0, 0, 0, 0, 0]).headD 0)⌋ + 1) ∧
     (checkAndRecord defaultConfig 1 [0, 0, 0, 0, 0]).2 =
       pruneLog defaultConfig 1 [0, 0, 0, 0, 0] ∧
     1 ≤ ⌊defaultConfig.windowSeconds -
        ((1 : ℚ) - (pruneLog defaultConfig 1 [0, 0, 0, 0, 0]).headD 0)⌋ + 1) :=
  ⟨by norm_num [defaultConfig],
   by norm_num [pruneLog, defaultConfig, List.dropWhile],
   rate_limit_denied_retry defaultConfig 1 [0, 0, 0, 0, 0]
     (by norm_num [defaultConfig])
     (by norm_num [pruneLog, defaultConfig, List.dropWhile])⟩

/-- C1 counterexample: five timestamps at 0, checked at `now = 1` under the
configured 5-per-60s limits.  The oldest remaining timestamp is 0, the
claimed value `max(ceil(60 - (1 - 0)), 1)` is 59, but the code denies with
`retry_after = 60`. -/
theorem retry_after_ceil_counterexample :
    (checkAndRecord defaultConfig 1 [0, 0, 0, 0, 0]).1 = .denied 60 ∧
    (pruneLog defaultConfig 1 [0, 0, 0, 0, 0]).headD 0 = 0 ∧
    max ⌈defaultConfig.windowSeconds - ((1 : ℚ) - 0)⌉ 1 = 59 ∧
    (60 : ℤ) ≠ 59 := by
  refine ⟨?_, ?_, ?_, by decide⟩
  · norm_num [checkAndRecord, pruneLog, List.dropWhile, retryAfterOf, pyTrunc,
      defaultConfig]
  · norm_num [pruneLog, List.dropWhile, defaultConfig]
  · norm_num [defaultConfig]

/-- C2: with the configured 5-per-60s limits, five checks at `t = 0` are
all allowed (leaving the log `[0,0,0,0,0]`), a sixth check at `t = 1` is
denied with a retry-after of 60, which lies in `[59, 60]`, and a check at
`t = 61` on the resulting log is allowed again. -/
theorem sliding_window_scenario :
    (checkAndRecord defaultConfig 0 []).1 = .allowed ∧
    (checkAndRecord defaultConfig 0 [0]).1 = .allowed ∧
    (checkAndRecord defaultConfig 0 [0, 0]).1 = .allowed ∧
    (checkAndRecord defaultConfig 0 [0, 0, 0]).1 = .allowed ∧
    (checkAndRecord defaultConfig 0 [0, 0, 0, 0]).1 = .allowed ∧
    runChecks defaultConfig [0, 0, 0, 0, 0] = [0, 0, 0, 0, 0] ∧
    (checkAndRecord defaultConfig 1 [0, 0, 0, 0, 0]).1 = .denied 60 ∧
    (59 : ℤ) ≤ 60 ∧ (60 : ℤ) ≤ 60 ∧
    (checkAndRecord defaultConfig 1 [0, 0, 0, 0, 0]).2 = [0, 0, 0, 0, 0] ∧
    (checkAndRecord defaultConfig 61 [0, 0, 0, 0, 0]).1 = .allowed := by
  norm_num [checkAndRecord, runChecks, pruneLog, List.dropWhile, retryAfterOf,
    pyTrunc, defaultConfig]

/-- C8: the upstream text `The query is: "best ramen near me"` normalizes
to exactly `best ramen near me`; the conversational label is matched
case-insensitively, and one layer of wrapping double quotes is removed. -/
theorem normalization_example :
    normalizeQuery "The query is: \"best ramen near me\"" = "best ramen near me" ∧
    normalizeQuery "THE QUERY IS: ramen" = "ramen" ∧
    normalizeQuery "Google Maps Search Query: \"pizza\"" = "pizza" ∧
    normalizeQuery "  \"wrapped\"  " = "wrapped" := by
  refine ⟨by decide, by decide, by decide, by decide⟩

/-- Deny branch of the rate-limit check, as an equation. -/
theorem checkAndRecord_denied_eq (cfg : RateConfig) (now : ℚ) (log : List ℚ)
    (h : cfg.maxRequests ≤ (pruneLog cfg now log).length) :
    checkAndRecord cfg now log =
      (.denied (retryAfterOf cfg now ((pruneLog cfg now log).headD 0)),
       pruneLog cfg now log) := by
  unfold checkAndRecord
  rw [if_pos h]

/-- Allow branch of the rate-limit check, as an equation. -/
theorem checkAndRecord_allowed_eq (cfg : RateConfig) (now : ℚ) (log : List ℚ)
    (h : (pruneLog cfg now log).length < cfg.maxRequests) :
    checkAndRecord cfg now log = (.allowed, pruneLog cfg now log ++ [now]) := by
  unfold checkAndRecord
  rw [if_neg (not_le.mpr h)]

/-- Every entry of the log left by one check was already in the log or is
the time of that check. -/
theorem checkAndRecord_mem (cfg : RateConfig) (now : ℚ) (log : List ℚ) :
    ∀ x ∈ (checkAndRecord cfg now log).2, x ∈ log ∨ x = now := by
  by_cases hlen : cfg.maxRequests ≤ (pruneLog cfg now log).length
  · rw [checkAndRecord_denied_eq cfg now log hlen]
    intro x hx
    exact Or.inl ((pruneLog_sublist cfg now log).subset hx)
  · rw [checkAndRecord_allowed_eq cfg now log (not_le.mp hlen)]
    intro x hx
    rcases List.mem_append.mp hx with h | h
    · exact Or.inl ((pruneLog_sublist cfg now log).subset h)
    · exact Or.inr (List.mem_singleton.mp h)

/-- One check keeps the log sorted and bounded by the time of the check,
provided the incoming log was sorted and bounded by it. -/
theorem checkAndRecord_sorted (cfg : RateConfig) (now : ℚ) (log : List ℚ)
    (hs : log.Sorted (· ≤ ·)) (hb : ∀ x ∈ log, x ≤ now) :
    ((checkAndRecord cfg now log).2).Sorted (· ≤ ·) ∧
    ∀ x ∈ (checkAndRecord cfg now log).2, x ≤ now := by
  have hps : (pruneLog cfg now log).Sorted (· ≤ ·) :=
    hs.sublist (pruneLog_sublist cfg now log)
  have hpb : ∀ x ∈ pruneLog cfg now log, x ≤ now := fun x hx =>
    hb x ((pruneLog_sublist cfg now log).subset hx)
  by_cases hlen : cfg.maxRequests ≤ (pruneLog cfg now log).length
  · rw [checkAndRecord_denied_eq cfg now log hlen]
    exact ⟨hps, hpb⟩
  · rw [checkAndRecord_allowed_eq cfg now log (not_le.mp hlen)]
    constructor
    · refine List.pairwise_append.mpr ⟨hps, List.pairwise_singleton _ _, ?_⟩
      intro a ha b hb'
      rw [List.mem_singleton] at hb'
      subst hb'
      exact hpb a ha
    · intro x hx
      rcases List.mem_append.mp hx with h | h
      · exact hpb x h
      · rw [List.mem_singleton] at h
        subst h
        exact le_rfl

/-- After one check at time `now` on a sorted log, no remaining entry is
below `now - window` (the appended `now` itself included, as long as the
window is non-negative). -/
theorem checkAndRecord_window_bound (cfg : RateConfig) (now : ℚ)
    (log : List ℚ) (hw : 0 ≤ cfg.windowSeconds) (hs : log.Sorted (· ≤ ·)) :
    ∀ x ∈ (checkAndRecord cfg now log).2, now - cfg.windowSeconds ≤ x := by
  by_cases hlen : cfg.maxRequests ≤ (pruneLog cfg now log).length
  · rw [checkAndRecord_denied_eq cfg now log hlen]
    exact pruneLog_bound cfg now hs
  · rw [checkAndRecord_allowed_eq cfg now log (not_le.mp hlen)]
    intro x hx
    rcases List.mem_append.mp hx with h | h
    · exact pruneLog_bound cfg now hs x h
    · rw [List.mem_singleton] at h
      subst h
      linarith

/-- Folding further checks onto an existing log. -/
theorem runChecks_append (cfg : RateConfig) (l1 l2 : List ℚ) :
    runChecks cfg (l1 ++ l2) =
      l2.foldl (fun log t => (checkAndRecord cfg t log).2) (runChecks cfg l1) := by
  unfold runChecks
  rw [List.foldl_append]

/-- Invariant of a fold of checks: starting from a sorted log bounded by
all remaining times, the result is sorted and every entry comes from the
start log or from the times. -/
theorem foldChecks_invariant (cfg : RateConfig) :
    ∀ (ts : List ℚ) (log : List ℚ), log.Sorted (· ≤ ·) →
      (∀ x ∈ log, ∀ t ∈ ts, x ≤ t) → ts.Sorted (· ≤ ·) →
      (ts.foldl (fun log t => (checkAndRecord cfg t log).2) log).Sorted (· ≤ ·) ∧
      ∀ x ∈ ts.foldl (fun log t => (checkAndRecord cfg t log).2) log,
        x ∈ log ∨ x ∈ ts := by
  intro ts
  induction ts with
  | nil =>
    intro log hs _ _
    exact ⟨hs, fun x hx => Or.inl hx⟩
  | cons t rest ih =>
    intro log hs hb hts
    rw [List.foldl_cons]
    have hbt : ∀ x ∈ log, x ≤ t := fun x hx => hb x hx t (List.mem_cons_self t rest)
    have hstep := checkAndRecord_sorted cfg t log hs hbt
    have hb' : ∀ x ∈ (checkAndRecord cfg t log).2, ∀ u ∈ rest, x ≤ u := by
      intro x hx u hu
      exact le_trans (hstep.2 x hx) ((List.sorted_cons.mp hts).1 u hu)
    obtain ⟨h1, h2⟩ :=
      ih (checkAndRecord cfg t log).2 hstep.1 hb' (List.sorted_cons.mp hts).2
    refine ⟨h1, fun x hx => ?_⟩
    rcases h2 x hx with hmem | hmem
    · rcases checkAndRecord_mem cfg t log x hmem with h | h
      · exact Or.inl h
      · subst h
        exact Or.inr (List.mem_cons_self x rest)
    · exact Or.inr (List.mem_cons_of_mem t hmem)

/-- A non-decreasing sequence of checks from the empty log leaves a sorted
log whose entries are among the times checked. -/
theorem runChecks_sorted_mem (cfg : RateConfig) (ts : List ℚ)
    (hts : ts.Sorted (· ≤ ·)) :
    (runChecks cfg ts).Sorted (· ≤ ·) ∧ ∀ x ∈ runChecks cfg ts, x ∈ ts := by
  obtain ⟨h1, h2⟩ := foldChecks_invariant cfg ts [] (by simp) (by simp) hts
  refine ⟨h1, fun x hx => ?_⟩
  rcases h2 x hx with h | h
  · simp at h
  · exact h

/-- In a sorted list, entries before position `i` are at most the entry at
position `i`. -/
theorem sorted_take_le (ts : List ℚ) (hts : ts.Sorted (· ≤ ·)) (i : ℕ)
    (hi : i < ts.length) :
    ∀ x ∈ ts.take i, x ≤ ts.get ⟨i, hi⟩ := by
  intro x hx
  have hpw : (ts.take i ++ ts.drop i).Pairwise (· ≤ ·) := by
    rw [List.take_append_drop]
    exact hts
  refine (List.pairwise_append.mp hpw).2.2 x hx (ts.get ⟨i, hi⟩) ?_
  rw [List.get_eq_getElem, List.drop_eq_getElem_cons hi]
  exact List.mem_cons_self _ _

/-- C3: along any non-decreasing sequence of checks on one identity
starting from the empty log, immediately after the pruning pass of the
check at position `i` (time `now = ts i`) every entry of the log is at
least `now - window`, and the same holds after the complete
`check_and_record` at that time. -/
theorem log_window_invariant (cfg : RateConfig) (hw : 0 ≤ cfg.windowSeconds)
    (ts : List ℚ) (hts : ts.Sorted (· ≤ ·)) (i : ℕ) (hi : i < ts.length) :
    (∀ x ∈ pruneLog cfg (ts.get ⟨i, hi⟩) (runChecks cfg (ts.take i)),
      ts.get ⟨i, hi⟩ - cfg.windowSeconds ≤ x) ∧
    ∀ x ∈ runChecks cfg (ts.take (i + 1)),
      ts.get ⟨i, hi⟩ - cfg.windowSeconds ≤ x := by
  have htake : (ts.take i).Sorted (· ≤ ·) := hts.sublist (List.take_sublist i ts)
  have hrs := runChecks_sorted_mem cfg (ts.take i) htake
  refine ⟨pruneLog_bound cfg (ts.get ⟨i, hi⟩) hrs.1, ?_⟩
  have hsucc : ts.take (i + 1) = ts.take i ++ [ts.get ⟨i, hi⟩] := by
    rw [List.take_succ, List.getElem?_eq_getElem hi]
    simp [List.get_eq_getElem]
  rw [hsucc, runChecks_append, List.foldl_cons, List.foldl_nil]
  exact checkAndRecord_window_bound cfg (ts.get ⟨i, hi⟩)
    (runChecks cfg (ts.take i)) hw hrs.1

/-- Witness for `log_window_invariant`: limits 5-per-60s, checks at times
0 then 1, examined at position 1. -/
theorem log_window_invariant_witness :
    (0 : ℚ) ≤ defaultConfig.windowSeconds ∧
    ([0, 1] : List ℚ).Sorted (· ≤ ·) ∧
    ((∀ x ∈ pruneLog defaultConfig (([0, 1] : List ℚ).get ⟨1, by norm_num⟩)
        (runChecks defaultConfig (([0, 1] : List ℚ).take 1)),
        ([0, 1] : List ℚ).get ⟨1, by norm_num⟩ - defaultConfig.windowSeconds ≤ x) ∧
      ∀ x ∈ runChecks defaultConfig (([0, 1] : List ℚ).take (1 + 1)),
        ([0, 1] : List ℚ).get ⟨1, by norm_num⟩ - defaultConfig.windowSeconds ≤ x) :=
  ⟨by norm_num [defaultConfig],
   by norm_num [List.sorted_cons],
   log_window_invariant defaultConfig (by norm_num [defaultConfig]) [0, 1]
     (by norm_num [List.sorted_cons]) 1 (by norm_num)⟩

/-- The extraction stage never touches the request log. -/
theorem extractionStage_log (C : ServerConfig) (quoteFn : String → String)
    (prompt : PyJson) (upstream : UpstreamResult) (log : List ℚ) :
    (extractionStage C quoteFn prompt upstream log).2 = log := by
  cases upstream with
  | connectionError => rfl
  | otherError d => rfl
  | success resp =>
    by_cases h : normalizeQuery resp = ""
    · simp [extractionStage, h]
    · simp [extractionStage, h]

/-- Path-mismatch branch of the handler, as an equation. -/
theorem doPost_not_places_eq (C : ServerConfig) (quoteFn : String → String)
    (req : Request) (now : ℚ) (log : List ℚ) (upstream : UpstreamResult)
    (h : req.path ≠ "/places") :
    doPost C quoteFn req now log upstream =
      (.response 404 (.text "Not Found") none, log) := by
  unfold doPost
  rw [if_pos h]

/-- Failed-authentication branch of the handler, as an equation. -/
theorem doPost_unauthorized_eq (C : ServerConfig) (quoteFn : String → String)
    (req : Request) (now : ℚ) (log : List ℚ) (upstream : UpstreamResult)
    (hp : req.path = "/places") (ha : authOk C req.apiKey = false) :
    doPost C quoteFn req now log upstream =
      (.response 401 (.text "Unauthorized: Invalid or missing X-API-Key header.") none,
       log) := by
  unfold doPost
  rw [if_neg (by simp [hp]), ha]
  rfl

/-- Rate-limit-denied branch of the handler, as an equation. -/
theorem doPost_denied_eq (C : ServerConfig) (quoteFn : String → String)
    (req : Request) (now : ℚ) (log : List ℚ) (upstream : UpstreamResult)
    (hp : req.path = "/places") (ha : authOk C req.apiKey = true)
    (hr : C.rateCfg.maxRequests ≤ (pruneLog C.rateCfg now log).length) :
    doPost C quoteFn req now log upstream =
      (.response 429
        (.text ("Too Many Requests. Please try again after " ++
          toString (retryAfterOf C.rateCfg now ((pruneLog C.rateCfg now log).headD 0)) ++
          " seconds."))
        (some (retryAfterOf C.rateCfg now ((pruneLog C.rateCfg now log).headD 0))),
       pruneLog C.rateCfg now log) := by
  unfold doPost
  rw [if_neg (by simp [hp]), ha, checkAndRecord_denied_eq C.rateCfg now log hr]
  rfl

/-- Rate-limit-allowed branch of the handler, as an equation: the current
time is logged and the request proceeds to body parsing. -/
theorem doPost_allowed_eq (C : ServerConfig) (quoteFn : String → String)
    (req : Request) (now : ℚ) (log : List ℚ) (upstream : UpstreamResult)
    (hp : req.path = "/places") (ha : authOk C req.apiKey = true)
    (hr : (pruneLog C.rateCfg now log).length < C.rateCfg.maxRequests) :
    doPost C quoteFn req now log upstream =
      match req.body with
      | none => (.response 400 (.text "Invalid JSON body") none,
                 pruneLog C.rateCfg now log ++ [now])
      | some (.obj fields) =>
        extractionStage C quoteFn ((lookupField fields "prompt").getD (.str ""))
          upstream (pruneLog C.rateCfg now log ++ [now])
      | some _ => (.crash "AttributeError: body has no attribute get",
                   pruneLog C.rateCfg now log ++ [now]) := by
  unfold doPost
  rw [if_neg (by simp [hp]), ha, checkAndRecord_allowed_eq C.rateCfg now log hr]
  rfl

/-- C9: on the recognized path, a request whose credential is absent,
empty, or different from the configured secret is answered 401 with the
request log untouched, independently of the body and of the upstream
service (no later pipeline stage runs). -/
theorem auth_guard_rejects (C : ServerConfig) (quoteFn : String → String)
    (req : Request) (now : ℚ) (log : List ℚ) (upstream : UpstreamResult)
    (hpath : req.path = "/places")
    (hkey : req.apiKey = none ∨ req.apiKey = some "" ∨
      ∃ k, req.apiKey = some k ∧ k ≠ C.serverApiKey) :
    doPost C quoteFn req now log upstream =
      (.response 401 (.text "Unauthorized: Invalid or missing X-API-Key header.") none,
       log) := by
  have ha : authOk C req.apiKey = false := by
    rcases hkey with h | h | ⟨k, hk, hne⟩
    · rw [h]
      rfl
    · rw [h]
      simp [authOk]
    · rw [hk]
      simp [authOk, hne]
  exact doPost_unauthorized_eq C quoteFn req now log upstream hpath ha

/-- Witness for `auth_guard_rejects`: a request with no `X-API-Key` header
at all, a non-empty log and a live body, is answered 401 and the log is
unchanged. -/
theorem auth_guard_rejects_witness :
    ("/places" : String) = "/places" ∧
    doPost testConfig pyQuote ⟨"/places", none, some (.obj [])⟩ 3 [1, 2]
        (.success "ramen") =
      (.response 401 (.text "Unauthorized: Invalid or missing X-API-Key header.") none,
       [1, 2]) :=
  ⟨rfl,
   auth_guard_rejects testConfig pyQuote ⟨"/places", none, some (.obj [])⟩ 3 [1, 2]
     (.success "ramen") rfl (Or.inl rfl)⟩

/-- C10: the request log changes exactly as the rate limiter dictates: it
is pruned and gains the entry `now` precisely when the request is on the
recognized path, authenticated and within the limit (whatever happens in
later stages); it is pruned only, gaining nothing, when the request is
authenticated but over the limit; and it is untouched otherwise. -/
theorem request_log_frame (C : ServerConfig) (quoteFn : String → String)
    (req : Request) (now : ℚ) (log : List ℚ) (upstream : UpstreamResult) :
    (doPost C quoteFn req now log upstream).2 =
      if req.path = "/places" ∧ authOk C req.apiKey = true then
        if (pruneLog C.rateCfg now log).length < C.rateCfg.maxRequests then
          pruneLog C.rateCfg now log ++ [now]
        else
          pruneLog C.rateCfg now log
      else log := by
  by_cases hp : req.path = "/places"
  · cases ha : authOk C req.apiKey with
    | true =>
      rw [if_pos ⟨hp, rfl⟩]
      by_cases hr : (pruneLog C.rateCfg now log).length < C.rateCfg.maxRequests
      · rw [if_pos hr, doPost_allowed_eq C quoteFn req now log upstream hp ha hr]
        rcases req.body with _ | j
        · rfl
        · cases j with
          | obj fields => exact extractionStage_log C quoteFn _ upstream _
          | str s => rfl
          | num n => rfl
          | bool b => rfl
          | null => rfl
          | arr xs => rfl
      · rw [if_neg hr,
          doPost_denied_eq C quoteFn req now log upstream hp ha (not_lt.mp hr)]
    | false =>
      rw [if_neg (by simp [ha]),
        doPost_unauthorized_eq C quoteFn req now log upstream hp ha]
  · rw [if_neg (by simp [hp]), doPost_not_places_eq C quoteFn req now log upstream hp]

/-- C4 (amended): when the upstream text normalizes to the empty string the
handler never answers 200, and a request that reaches the extraction stage
is answered 400; a text that normalizes to a non-empty whitespace-only
string is NOT caught by the emptiness check (see the counterexample). -/
theorem empty_extraction_400 (C : ServerConfig) (quoteFn : String → String)
    (req : Request) (now : ℚ) (log : List ℚ) (resp : String)
    (hresp : normalizeQuery resp = "") :
    statusOf (doPost C quoteFn req now log (.success resp)).1 ≠ some 200 ∧
    (req.path = "/places" → authOk C req.apiKey = true →
     (pruneLog C.rateCfg now log).length < C.rateCfg.maxRequests →
     (∃ fields, req.body = some (.obj fields)) →
     (doPost C quoteFn req now log (.success resp)).1 =
       .response 400 (.text "Empty or invalid query extracted by LLM.") none) := by
  constructor
  · by_cases hp : req.path = "/places"
    · cases ha : authOk C req.apiKey with
      | false =>
        rw [doPost_unauthorized_eq C quoteFn req now log (.success resp) hp ha]
        simp [statusOf]
      | true =>
        by_cases hr : (pruneLog C.rateCfg now log).length < C.rateCfg.maxRequests
        · rw [doPost_allowed_eq C quoteFn req now log (.success resp) hp ha hr]
          rcases req.body with _ | j
          · simp [statusOf]
          · cases j with
            | obj fields => simp [extractionStage, hresp, statusOf]
            | str s => simp [statusOf]
            | num n => simp [statusOf]
            | bool b => simp [statusOf]
            | null => simp [statusOf]
            | arr xs => simp [statusOf]
        · rw [doPost_denied_eq C quoteFn req now log (.success resp) hp ha
            (not_lt.mp hr)]
          simp [statusOf]
    · rw [doPost_not_places_eq C quoteFn req now log (.success resp) hp]
      simp [statusOf]
  · intro hp ha hr hbody
    obtain ⟨fields, hb⟩ := hbody
    rw [doPost_allowed_eq C quoteFn req now log (.success resp) hp ha hr, hb]
    simp [extractionStage, hresp]

/-- Witness for `empty_extraction_400`: an upstream reply whose `response`
field is missing or empty normalizes to the empty string and is answered
400, not 200. -/
theorem empty_extraction_400_witness :
    normalizeQuery "" = "" ∧
    statusOf (doPost testConfig pyQuote
        ⟨"/places", some "secret-key", some (.obj [])⟩ 0 [] (.success "")).1 ≠
      some 200 ∧
    (doPost testConfig pyQuote
        ⟨"/places", some "secret-key", some (.obj [])⟩ 0 [] (.success "")).1 =
      .response 400 (.text "Empty or invalid query extracted by LLM.") none :=
  ⟨rfl,
   (empty_extraction_400 testConfig pyQuote
      ⟨"/places", some "secret-key", some (.obj [])⟩ 0 [] "" rfl).1,
   (empty_extraction_400 testConfig pyQuote
      ⟨"/places", some "secret-key", some (.obj [])⟩ 0 [] "" rfl).2
     rfl (by decide) (by decide) ⟨[], rfl⟩⟩

/-- C4 counterexample: the upstream text consisting of a double-quoted
single space is whitespace-only after normalization (the quote-stripping
step re-exposes the inner whitespace after the initial trim), yet the
handler answers 200, because the code only checks `if not raw_query`,
i.e. emptiness, not whitespace-onlyness. -/
theorem whitespace_extraction_200_counterexample :
    normalizeQuery "\" \"" = " " ∧
    (normalizeQuery "\" \"" ≠ "") ∧
    (∀ c ∈ (normalizeQuery "\" \"").data, c.isWhitespace) ∧
    statusOf (doPost testConfig pyQuote
        ⟨"/places", some "secret-key", some (.obj [])⟩ 0 [] (.success "\" \"")).1 =
      some 200 :=
  ⟨by decide, by decide, by decide, rfl⟩

/-- C5 (amended): every 200 response carries exactly four JSON fields, in
order `original_prompt` (the prompt from the request body, defaulting to
the empty string), `llm_query_extracted` (the normalized query),
`Maps_interactive_link` and `Maps_embed_iframe_url` (both links built from
the URL-quoted normalized query); the field names are capitalized
`Maps_…`, not `maps_…`, and the raw upstream text appears in no field —
only its normalization does. -/
theorem success_response_shape (C : ServerConfig) (quoteFn : String → String)
    (req : Request) (now : ℚ) (log : List ℚ) (upstream : UpstreamResult)
    (b : ResponseBody) (r : Option ℤ)
    (h : (doPost C quoteFn req now log upstream).1 = .response 200 b r) :
    ∃ fields resp, req.body = some (.obj fields) ∧
      upstream = .success resp ∧ r = none ∧
      b = .json
        [("original_prompt", (lookupField fields "prompt").getD (.str "")),
         ("llm_query_extracted", .str (normalizeQuery resp)),
         ("Maps_interactive_link",
          .str (mapsSearchBase ++ quoteFn (normalizeQuery resp))),
         ("Maps_embed_iframe_url",
          .str (mapsEmbedUrl C.googleMapsApiKey (quoteFn (normalizeQuery resp))))] := by
  by_cases hp : req.path = "/places"
  · cases ha : authOk C req.apiKey with
    | false =>
      rw [doPost_unauthorized_eq C quoteFn req now log upstream hp ha] at h
      simp at h
    | true =>
      by_cases hr : (pruneLog C.rateCfg now log).length < C.rateCfg.maxRequests
      · rw [doPost_allowed_eq C quoteFn req now log upstream hp ha hr] at h
        rcases hb : req.body with _ | j
        · rw [hb] at h
          simp at h
        · cases j with
          | obj fields =>
            rw [hb] at h
            cases hu : upstream with
            | connectionError =>
              rw [hu] at h
              simp [extractionStage] at h
            | otherError d =>
              rw [hu] at h
              simp [extractionStage] at h
            | success resp =>
              rw [hu] at h
              by_cases he : normalizeQuery resp = ""
              · simp [extractionStage, he] at h
              · simp only [extractionStage, if_neg he] at h
                injection h with h1 h2 h3
                exact ⟨fields, resp, rfl, rfl, h3.symm, h2.symm⟩
          | str s =>
            rw [hb] at h
            simp at h
          | num n =>
            rw [hb] at h
            simp at h
          | bool b' =>
            rw [hb] at h
            simp at h
          | null =>
            rw [hb] at h
            simp at h
          | arr xs =>
            rw [hb] at h
            simp at h
      · rw [doPost_denied_eq C quoteFn req now log upstream hp ha (not_lt.mp hr)] at h
        simp at h
  · rw [doPost_not_places_eq C quoteFn req now log upstream hp] at h
    simp at h

/-- Witness for `success_response_shape`: a complete successful request
whose 200 body is exactly the four fields. -/
theorem success_response_shape_witness :
    ∃ fields resp,
      (Request.mk "/places" (some "secret-key")
          (some (.obj [("prompt", PyJson.str "ramen near me")]))).body =
        some (.obj fields) ∧
      UpstreamResult.success "ramen" = .success resp ∧
      (none : Option ℤ) = none ∧
      ResponseBody.json
          [("original_prompt", PyJson.str "ramen near me"),
           ("llm_query_extracted", PyJson.str "ramen"),
           ("Maps_interactive_link", PyJson.str (mapsSearchBase ++ pyQuote "ramen")),
           ("Maps_embed_iframe_url",
            PyJson.str (mapsEmbedUrl "maps-key" (pyQuote "ramen")))] =
        .json
          [("original_prompt", (lookupField fields "prompt").getD (.str "")),
           ("llm_query_extracted", .str (normalizeQuery resp)),
           ("Maps_interactive_link",
            .str (mapsSearchBase ++ pyQuote (normalizeQuery resp))),
           ("Maps_embed_iframe_url",
            .str (mapsEmbedUrl testConfig.googleMapsApiKey
              (pyQuote (normalizeQuery resp))))] :=
  success_response_shape testConfig pyQuote
    (Request.mk "/places" (some "secret-key")
      (some (.obj [("prompt", PyJson.str "ramen near me")])))
    0 [] (.success "ramen")
    (.json
      [("original_prompt", PyJson.str "ramen near me"),
       ("llm_query_extracted", PyJson.str "ramen"),
       ("Maps_interactive_link", PyJson.str (mapsSearchBase ++ pyQuote "ramen")),
       ("Maps_embed_iframe_url",
        PyJson.str (mapsEmbedUrl "maps-key" (pyQuote "ramen")))])
    none rfl

/-- C5 counterexample: a successful request whose upstream text is
`The query is: "ramen"`.  The 200 body's key list is
`original_prompt, llm_query_extracted, Maps_interactive_link,
Maps_embed_iframe_url` — not the lowercase `maps_…` names the claim
states — and no field holds the raw upstream text: `llm_query_extracted`
holds the normalized `ramen`, not `The query is: "ramen"`. -/
theorem response_fields_counterexample :
    (doPost testConfig pyQuote
        ⟨"/places", some "secret-key", some (.obj [])⟩ 0 []
        (.success "The query is: \"ramen\"")).1 =
      .response 200 (.json
        [("original_prompt", .str ""),
         ("llm_query_extracted", .str "ramen"),
         ("Maps_interactive_link",
          .str "https://www.google.com/maps/search/?api=1&query=ramen"),
         ("Maps_embed_iframe_url",
          .str "https://www.google.com/maps/embed/v1/place?key=maps-key&q=ramen")])
        none ∧
    (["original_prompt", "llm_query_extracted", "Maps_interactive_link",
      "Maps_embed_iframe_url"] : List String) ≠
      ["original_prompt", "llm_query_extracted", "maps_interactive_link",
       "maps_embed_iframe_url"] ∧
    ("" : String) ≠ "The query is: \"ramen\"" ∧
    ("ramen" : String) ≠ "The query is: \"ramen\"" ∧
    ("https://www.google.com/maps/search/?api=1&query=ramen" : String) ≠
      "The query is: \"ramen\"" ∧
    ("https://www.google.com/maps/embed/v1/place?key=maps-key&q=ramen" : String) ≠
      "The query is: \"ramen\"" :=
  ⟨rfl, by decide, by decide, by decide, by decide, by decide⟩

/-- C6 (amended): a POST to any path other than `/places` is answered 404;
an OPTIONS request is answered 200 on every path, the recognized one or
not (`do_OPTIONS` never inspects the path); any other method is answered
by the HTTP library's 501, not 404. -/
theorem method_dispatch (C : ServerConfig) (quoteFn : String → String)
    (method : String) (req : Request) (now : ℚ) (log : List ℚ)
    (upstream : UpstreamResult) :
    (method = "POST" → req.path ≠ "/places" →
      handleRequest C quoteFn method req now log upstream =
        (.response 404 (.text "Not Found") none, log)) ∧
    (method = "OPTIONS" →
      handleRequest C quoteFn method req now log upstream =
        (.response 200 (.text "") none, log)) ∧
    (method ≠ "OPTIONS" → method ≠ "POST" →
      handleRequest C quoteFn method req now log upstream =
        (.response 501 (.text ("Unsupported method (" ++ method ++ ")")) none,
         log)) := by
  refine ⟨?_, ?_, ?_⟩
  · intro hm hp
    subst hm
    unfold handleRequest
    rw [if_neg (by decide), if_pos rfl]
    exact doPost_not_places_eq C quoteFn req now log upstream hp
  · intro hm
    subst hm
    rfl
  · intro hopt hpost
    unfold handleRequest
    rw [if_neg hopt, if_neg hpost]

/-- Witness for `method_dispatch`: a POST to `/nowhere` is answered 404. -/
theorem method_dispatch_witness :
    ("POST" : String) = "POST" ∧ ("/nowhere" : String) ≠ "/places" ∧
    handleRequest testConfig pyQuote "POST" ⟨"/nowhere", none, none⟩ 0 []
        .connectionError =
      (.response 404 (.text "Not Found") none, []) :=
  ⟨rfl, by decide,
   (method_dispatch testConfig pyQuote "POST" ⟨"/nowhere", none, none⟩ 0 []
      .connectionError).1 rfl (by decide)⟩

/-- C6 counterexample: an OPTIONS request on an unrecognized path is
answered 200 (the preflight handler ignores the path), and a GET on an
unrecognized path is answered 501 by the HTTP library; neither is the 404
the claim requires for every method. -/
theorem options_any_path_counterexample :
    (handleRequest testConfig pyQuote "OPTIONS" ⟨"/nowhere", none, none⟩ 0 []
        .connectionError).1 = .response 200 (.text "") none ∧
    (handleRequest testConfig pyQuote "GET" ⟨"/nowhere", none, none⟩ 0 []
        .connectionError).1 =
      .response 501 (.text "Unsupported method (GET)") none ∧
    (200 : ℕ) ≠ 404 ∧ (501 : ℕ) ≠ 404 :=
  ⟨rfl, rfl, by decide, by decide⟩

/-- C7 (amended): past path, auth and rate limiting, a body that fails
JSON decoding is answered 400 (with the timestamp already logged); a
decoded object body lacking the `prompt` field proceeds to the extraction
stage with the prompt defaulted to the empty string — no error at the
parsing stage; but a decoded body that is NOT an object is not answered
400: `body.get` raises an uncaught `AttributeError` (see the
counterexample). -/
theorem body_parse_stage (C : ServerConfig) (quoteFn : String → String)
    (req : Request) (now : ℚ) (log : List ℚ) (upstream : UpstreamResult)
    (hpath : req.path = "/places") (hauth : authOk C req.apiKey = true)
    (hrate : (pruneLog C.rateCfg now log).length < C.rateCfg.maxRequests) :
    (req.body = none →
      doPost C quoteFn req now log upstream =
        (.response 400 (.text "Invalid JSON body") none,
         pruneLog C.rateCfg now log ++ [now])) ∧
    (∀ fields, req.body = some (.obj fields) →
      lookupField fields "prompt" = none →
      doPost C quoteFn req now log upstream =
        extractionStage C quoteFn (.str "") upstream
          (pruneLog C.rateCfg now log ++ [now])) := by
  constructor
  · intro hb
    rw [doPost_allowed_eq C quoteFn req now log upstream hpath hauth hrate, hb]
  · intro fields hb hlook
    rw [doPost_allowed_eq C quoteFn req now log upstream hpath hauth hrate, hb]
    simp only [hlook, Option.getD_none]

/-- Witness for `body_parse_stage`: an undecodable body is answered 400,
and an object body without `prompt` reaches the extraction stage with the
empty prompt. -/
theorem body_parse_stage_witness :
    ("/places" : String) = "/places" ∧
    authOk testConfig (some "secret-key") = true ∧
    (pruneLog testConfig.rateCfg 0 []).length < testConfig.rateCfg.maxRequests ∧
    doPost testConfig pyQuote ⟨"/places", some "secret-key", none⟩ 0 []
        .connectionError =
      (.response 400 (.text "Invalid JSON body") none,
       pruneLog testConfig.rateCfg 0 [] ++ [0]) ∧
    doPost testConfig pyQuote
        ⟨"/places", some "secret-key", some (.obj [("other", .null)])⟩ 0 []
        .connectionError =
      extractionStage testConfig pyQuote (.str "") .connectionError
        (pruneLog testConfig.rateCfg 0 [] ++ [0]) :=
  ⟨rfl, by decide, by decide,
   (body_parse_stage testConfig pyQuote ⟨"/places", some "secret-key", none⟩ 0 []
      .connectionError rfl (by decide) (by decide)).1 rfl,
   (body_parse_stage testConfig pyQuote
      ⟨"/places", some "secret-key", some (.obj [("other", .null)])⟩ 0 []
      .connectionError rfl (by decide) (by decide)).2
     [("other", .null)] rfl rfl⟩

/-- C7 counterexample: a body that decodes to the JSON array `[]` — valid
JSON but not an object — makes the handler crash with an uncaught
`AttributeError` instead of answering 400: no response at all is sent. -/
theorem nonobject_body_counterexample :
    (doPost testConfig pyQuote
        ⟨"/places", some "secret-key", some (.arr [])⟩ 0 [] (.success "x")).1 =
      .crash "AttributeError: body has no attribute get" ∧
    statusOf (doPost testConfig pyQuote
        ⟨"/places", some "secret-key", some (.arr [])⟩ 0 [] (.success "x")).1 =
      none ∧
    (none : Option ℕ) ≠ some 400 :=
  ⟨rfl, rfl, by decide⟩

end MapsGateway
